import Mathlib

/-!
Verification of the health-aggregation and task-retry logic of the
deploy-automated-blueprint repository.

The health part is embedded from two Python sources:
  * `src/examples/fastapi-app/app/main.py` — the `readiness` endpoint that
    probes the database and Redis, each in its own try/except block, and
    aggregates with `all(c["status"] == "healthy" ...)`;
  * `src/templates/health/health.py` — the `readiness` endpoint that runs
    the memory and CPU checks inside one shared try block and sets HTTP
    503 only when an exception escapes.

The worker part is embedded from `src/templates/workers/celery.py`: the
configuration constants and the `example_task` body are in the source;
the retry/ack/time-limit/rate-limit engine itself is Celery's and is not
part of the repository's sources, so it is modelled from the spec where a
claim needs it (marked `Modelled from the spec:` on each such definition).
-/

/-- Probe/overall status values used by both Python readiness endpoints
(the code stores them as the strings "healthy" / "warning" / "unhealthy"). -/
inductive PStatus
  | healthy
  | warning
  | unhealthy
  deriving DecidableEq, Repr

/-- One entry of the `checks` dict in the fastapi example's readiness
report: a status plus either a latency (success path) or an error
message (failure path). -/
structure CheckEntry where
  status : PStatus
  latency_ms : Option Nat
  error : Option String
  deriving DecidableEq, Repr

/-- The readiness response of the fastapi example
(`src/examples/fastapi-app/app/main.py`, `ReadinessCheck` plus the HTTP
status the route answers with). -/
structure MainReadinessResult where
  status : PStatus
  checks : List (String × CheckEntry)
  httpStatus : Nat
  deriving DecidableEq, Repr

/-- The outcome of one dependency probe in the fastapi example: either a
measured latency or the raised exception's message. -/
def ProbeOutcome : Type := Except String Nat

/-- `checks["database"] = {"status": "healthy", "latency_ms": ...}` on
success, `{"status": "unhealthy", "error": str(e)}` on exception
(main.py lines 144-158): each probe has its own try/except. -/
def probeEntry (o : Except String Nat) : CheckEntry :=
  match o with
  | Except.ok lat => ⟨PStatus.healthy, some lat, none⟩
  | Except.error e => ⟨PStatus.unhealthy, none, some e⟩

/-- The aggregation of main.py line 160-163:
`all_healthy = all(c["status"] == "healthy" for c in checks.values())`,
overall `"healthy" if all_healthy else "unhealthy"`. -/
def mainAggregate (cs : List PStatus) : PStatus :=
  if cs.all (fun c => c = PStatus.healthy) then PStatus.healthy
  else PStatus.unhealthy

/-- The readiness endpoint of `src/examples/fastapi-app/app/main.py`
(lines 138-166), given the outcome of the database probe and of the
Redis probe. The route never changes the response status code, so the
HTTP status is FastAPI's default 200 on every path. -/
def mainReadiness (db rds : Except String Nat) : MainReadinessResult :=
  let checks := [("database", probeEntry db), ("redis", probeEntry rds)]
  { status := mainAggregate (checks.map (fun c => c.2.status))
    checks := checks
    httpStatus := 200 }

/-- What the memory check of `src/templates/health/health.py` returns
when it does not raise: `psutil.virtual_memory()`'s used percent and
available MB. Percents are modelled as rationals. -/
structure MemInfo where
  percent : ℚ
  available_mb : Nat
  deriving DecidableEq, Repr

/-- One entry of `checks["checks"]` in the health template's report. -/
structure HealthEntry where
  status : PStatus
  used_percent : ℚ
  available_mb : Option Nat
  deriving DecidableEq, Repr

/-- The health template's readiness response (`ReadinessCheck` of
`src/templates/health/health.py` plus the HTTP status). -/
structure HealthReadinessResult where
  status : PStatus
  checks : List (String × HealthEntry)
  error : Option String
  httpStatus : Nat
  deriving DecidableEq, Repr

/-- Memory entry built at health.py lines 76-82:
status `"healthy" if memory_percent < 90 else "warning"`. -/
def memoryEntry (m : MemInfo) : HealthEntry :=
  ⟨if m.percent < 90 then PStatus.healthy else PStatus.warning,
   m.percent, some m.available_mb⟩

/-- CPU entry built at health.py lines 84-89:
status `"healthy" if cpu_percent < 90 else "warning"`. -/
def cpuEntry (c : ℚ) : HealthEntry :=
  ⟨if c < 90 then PStatus.healthy else PStatus.warning, c, none⟩

/-- The readiness endpoint of `src/templates/health/health.py` (lines
49-97), given the outcomes of the memory probe and the CPU probe (each
either a value or the message of a raised exception). The whole body
runs in one try block: the first exception jumps to the handler, which
sets overall "unhealthy", records the message in the top-level `error`
field and answers 503; entries added before the exception are kept, the
remaining checks never run. On the exception-free path the overall
status stays the initial "healthy" whatever the per-check statuses are,
and the HTTP status is the default 200. -/
def healthReadiness (mem : Except String MemInfo) (cpu : Except String ℚ) :
    HealthReadinessResult :=
  match mem with
  | Except.error e =>
      { status := PStatus.unhealthy, checks := [], error := some e,
        httpStatus := 503 }
  | Except.ok m =>
      match cpu with
      | Except.error e =>
          { status := PStatus.unhealthy,
            checks := [("memory", memoryEntry m)],
            error := some e, httpStatus := 503 }
      | Except.ok c =>
          { status := PStatus.healthy,
            checks := [("memory", memoryEntry m), ("cpu", cpuEntry c)],
            error := none, httpStatus := 200 }

/-- Status values of a task invocation (spec §3 `TaskInvocation`). -/
inductive TaskStatus
  | pending
  | running
  | succeeded
  | failed
  | retrying
  | expired
  deriving DecidableEq, Repr

/-- `task_max_retries=3` and the decorator argument `max_retries=3` of
`example_task` in `src/templates/workers/celery.py` (lines 83 and 109). -/
def task_max_retries : Nat := 3

/-- `task_default_retry_delay=60` in `src/templates/workers/celery.py`
line 82, the 60-second backoff base also hard-coded in `example_task`. -/
def task_default_retry_delay : Nat := 60

/-- `task_time_limit=3600` (hard limit, seconds) in
`src/templates/workers/celery.py` line 62. -/
def task_time_limit : Nat := 3600

/-- `task_soft_time_limit=3300` (soft limit, seconds) in
`src/templates/workers/celery.py` line 63. -/
def task_soft_time_limit : Nat := 3300

/-- `task_acks_late=True` in `src/templates/workers/celery.py` line 60. -/
def task_acks_late : Bool := true

/-- The `rate_limit="10/m"` of `rate_limited_task` in
`src/templates/workers/celery.py` line 133: 10 dispatches per minute. -/
def rate_limited_task_limit : Nat := 10

/-- The backoff countdown computed in `example_task`
(`src/templates/workers/celery.py` line 124):
`countdown=60 * (2 ** self.request.retries)`. -/
def exampleTaskCountdown (retries : Nat) : Nat := 60 * 2 ^ retries

/-- The result value `{"status": "success", "data": data}` that
`example_task` returns. -/
structure ExampleTaskResult (α : Type) where
  status : String
  data : α
  deriving DecidableEq, Repr

/-- What one call of `example_task` does: either return a value or ask
the executor to retry with a countdown (the `self.retry(...)` call). -/
inductive ExampleTaskOutcome (α : Type)
  | finished (r : ExampleTaskResult α)
  | retryRequested (countdown : Nat)
  deriving DecidableEq, Repr

/-- The body of the `try` block of `example_task`
(`src/templates/workers/celery.py` lines 119-121): it only builds and
returns `{"status": "success", "data": data}`, an operation that cannot
raise, so the embedded body is always `ok`. -/
def exampleTaskBody {α : Type} (data : α) : Except String (ExampleTaskResult α) :=
  Except.ok { status := "success", data := data }

/-- `example_task` of `src/templates/workers/celery.py` (lines 109-124):
run the try body; on an exception, call `self.retry` with countdown
`60 * 2 ** self.request.retries`. `retries` is the current value of
`self.request.retries`. -/
def example_task {α : Type} (retries : Nat) (data : α) : ExampleTaskOutcome α :=
  match exampleTaskBody data with
  | Except.ok r => ExampleTaskOutcome.finished r
  | Except.error _ => ExampleTaskOutcome.retryRequested (exampleTaskCountdown retries)

/-- Modelled from the spec: the per-invocation state seen by the
executor's state machine (spec §3/§4.2). The executor itself is Celery
and is not part of the repository's sources; only its configuration is.
`retries` is the attempt count that "starts at 0, incremented per
retry"; `acked` records whether the broker has marked the work consumed
(late-acknowledgment mode, `task_acks_late=True`). -/
structure Invocation where
  status : TaskStatus
  retries : Nat
  acked : Bool
  deriving DecidableEq, Repr

/-- Modelled from the spec: the state-machine transitions of §4.2 for a
single invocation under late acknowledgment. Retry is guarded by
`retries < maxRetries`; the broker acknowledges only on the terminal
transitions (Succeeded, Failed, Expired); a worker lost before
acknowledgment returns the invocation to Pending with its attempt count
preserved. -/
inductive Step (maxRetries : Nat) : Invocation → Invocation → Prop
  | dispatch (r : Nat) (a : Bool) :
      Step maxRetries ⟨TaskStatus.pending, r, a⟩ ⟨TaskStatus.running, r, a⟩
  | succeed (r : Nat) (a : Bool) :
      Step maxRetries ⟨TaskStatus.running, r, a⟩ ⟨TaskStatus.succeeded, r, true⟩
  | failRetry (r : Nat) (a : Bool) (h : r < maxRetries) :
      Step maxRetries ⟨TaskStatus.running, r, a⟩ ⟨TaskStatus.retrying, r + 1, a⟩
  | failFinal (a : Bool) :
      Step maxRetries ⟨TaskStatus.running, maxRetries, a⟩
        ⟨TaskStatus.failed, maxRetries, true⟩
  | backoffElapsed (r : Nat) (a : Bool) :
      Step maxRetries ⟨TaskStatus.retrying, r, a⟩ ⟨TaskStatus.running, r, a⟩
  | expireHard (r : Nat) (a : Bool) :
      Step maxRetries ⟨TaskStatus.running, r, a⟩ ⟨TaskStatus.expired, r, true⟩
  | workerLost (s : TaskStatus) (r : Nat) :
      Step maxRetries ⟨s, r, false⟩ ⟨TaskStatus.pending, r, false⟩

/-- Modelled from the spec: the states an invocation can reach from its
submission state (Pending, attempt count 0, not yet acknowledged). -/
inductive Reach (maxRetries : Nat) : Invocation → Prop
  | init : Reach maxRetries ⟨TaskStatus.pending, 0, false⟩
  | step (i j : Invocation) (hr : Reach maxRetries i)
      (hs : Step maxRetries i j) : Reach maxRetries j

/-- Modelled from the spec: a worker's execution of one task run that
fails on every attempt, with backoff `delay = retry_base * 2^attempt`
(attempt starting at 0 for the first retry) and retries capped at the
remaining retry budget. Returns the number of executions performed, the
list of scheduled retry delays, and the final status. `r` is the current
attempt counter, `remaining` the retries still allowed (`maxRetries - r`
when started from 0). The executor itself is Celery, not in the
repository's sources. -/
def runAllFailAux (base : Nat) : Nat → Nat → Nat × List Nat × TaskStatus
  | _, 0 => (1, [], TaskStatus.failed)
  | r, remaining + 1 =>
      let rest := runAllFailAux base (r + 1) remaining
      (rest.1 + 1, base * 2 ^ r :: rest.2.1, rest.2.2)

/-- Modelled from the spec: a full run of a task failing on every
attempt, started at attempt counter 0 with `maxRetries` retries
allowed. -/
def runAllFail (base maxRetries : Nat) : Nat × List Nat × TaskStatus :=
  runAllFailAux base 0 maxRetries

/-- Modelled from the spec: what happens to one handler execution under
the soft/hard time limits (§4.2, §5). `duration` is how long the handler
would run if left alone, `wouldSucceed` whether it would then complete
successfully. Beyond the hard limit the handler is forcibly stopped and
the invocation is Expired regardless of `wouldSucceed`; beyond only the
soft limit the handler is merely notified and runs to its own
completion. -/
structure LimitedRun where
  status : TaskStatus
  softNotified : Bool
  forciblyStopped : Bool
  deriving DecidableEq, Repr

/-- Modelled from the spec: execution of one attempt under the soft and
hard time limits. Celery's limit enforcement is not in the repository's
sources; the limits themselves (`task_soft_time_limit`,
`task_time_limit`) are. -/
def runWithLimits (softL hardL duration : Nat) (wouldSucceed : Bool) :
    LimitedRun :=
  if hardL < duration then
    { status := TaskStatus.expired, softNotified := softL < duration,
      forciblyStopped := true }
  else if softL < duration then
    { status := if wouldSucceed then TaskStatus.succeeded else TaskStatus.failed,
      softNotified := true, forciblyStopped := false }
  else
    { status := if wouldSucceed then TaskStatus.succeeded else TaskStatus.failed,
      softNotified := false, forciblyStopped := false }

/-- Modelled from the spec: one fixed rate-limit window over a queue of
task invocations in submission order. At most `budget` pending
invocations are dispatched (moved to Running); the rest stay Pending for
later windows; nothing is marked Failed. Celery's rate limiter is not in
the repository's sources; the `10/m` limit of `rate_limited_task` is. -/
def rateWindow (budget : Nat) : List TaskStatus → List TaskStatus
  | [] => []
  | t :: ts =>
      if t = TaskStatus.pending then
        match budget with
        | 0 => t :: rateWindow 0 ts
        | b + 1 => TaskStatus.running :: rateWindow b ts
      else
        t :: rateWindow budget ts

/-- Number of invocations in a given status. -/
def countStatus (s : TaskStatus) (ts : List TaskStatus) : Nat :=
  ts.countP (fun t => t = s)

/-- C1 counterexample: the fastapi example's aggregation maps a result
set containing a Warning probe and no Unhealthy probe to overall
Unhealthy, not to the Warning the claim requires. -/
theorem c1_counterexample :
    mainAggregate [PStatus.healthy, PStatus.warning] = PStatus.unhealthy
    ∧ mainAggregate [PStatus.healthy, PStatus.warning] ≠ PStatus.warning := by
  decide

/-- C1 (amended): neither endpoint implements worst-of precedence. The
fastapi example's overall status is Healthy iff every probe result is
healthy and Unhealthy otherwise (Warning is never an overall status);
the health template's overall status on the exception-free path is
Healthy regardless of per-probe warning statuses. -/
theorem c1_amended :
    (∀ cs : List PStatus,
      (mainAggregate cs = PStatus.healthy
        ↔ cs.all (fun c => c = PStatus.healthy) = true)
      ∧ (mainAggregate cs = PStatus.healthy
        ∨ mainAggregate cs = PStatus.unhealthy))
    ∧ ∀ (m : MemInfo) (c : ℚ),
        (healthReadiness (Except.ok m) (Except.ok c)).status
          = PStatus.healthy := by
  constructor
  · intro cs
    unfold mainAggregate
    by_cases h : cs.all (fun c => c = PStatus.healthy) = true
    · simp [h]
    · simp [h]
  · intro m c
    rfl

/-- C2 counterexample: in the health template, when the memory check
raises (message "boom") the report's per-probe map is empty — the CPU
probe's result does not appear, and the raising probe has no individual
Unhealthy entry either. -/
theorem c2_counterexample :
    (healthReadiness (Except.error "boom") (Except.ok 50)).checks = []
    ∧ (healthReadiness (Except.error "boom") (Except.ok 50)).checks.lookup "cpu"
        = none := by
  constructor <;> rfl

/-- C2 (amended): in the fastapi example each probe runs in its own
try/except, so a raising probe is reported Unhealthy with the failure
message as its error and the other probe's entry still appears. In the
health template all checks share one try block: an exception in a check
sends its message to the top-level error field with overall Unhealthy,
keeps only the entries added before the exception, and the remaining
checks never appear. -/
theorem c2_amended :
    (∀ (e : String) (rds : Except String Nat),
      (mainReadiness (Except.error e) rds).checks.lookup "database"
          = some ⟨PStatus.unhealthy, none, some e⟩
      ∧ (mainReadiness (Except.error e) rds).checks.lookup "redis"
          = some (probeEntry rds))
    ∧ (∀ (db : Except String Nat) (e : String),
      (mainReadiness db (Except.error e)).checks.lookup "redis"
          = some ⟨PStatus.unhealthy, none, some e⟩
      ∧ (mainReadiness db (Except.error e)).checks.lookup "database"
          = some (probeEntry db))
    ∧ (∀ (e : String) (cpu : Except String ℚ),
      (healthReadiness (Except.error e) cpu).checks = []
      ∧ (healthReadiness (Except.error e) cpu).status = PStatus.unhealthy
      ∧ (healthReadiness (Except.error e) cpu).error = some e)
    ∧ ∀ (m : MemInfo) (e : String),
      (healthReadiness (Except.ok m) (Except.error e)).checks
          = [("memory", memoryEntry m)]
      ∧ (healthReadiness (Except.ok m) (Except.error e)).error = some e := by
  refine ⟨fun e rds => ⟨rfl, rfl⟩, fun db e => ⟨rfl, rfl⟩,
    fun e cpu => ⟨rfl, rfl, rfl⟩, fun m e => ⟨rfl, rfl⟩⟩

/-- C5: evaluating the fastapi example's readiness endpoint at a failing
database probe: the report's overall status is Unhealthy, yet the HTTP
status is 200 — the route never sets 503, contradicting the claim (and
the health template, which does answer 503 exactly on its unhealthy
path). -/
theorem c5_always_200 :
    (mainReadiness (Except.error "connection refused") (Except.ok 1)).status
        = PStatus.unhealthy
    ∧ (mainReadiness (Except.error "connection refused") (Except.ok 1)).httpStatus
        = 200
    ∧ ∀ (mem : Except String MemInfo) (cpu : Except String ℚ),
        ((healthReadiness mem cpu).httpStatus = 503
          ↔ (healthReadiness mem cpu).status = PStatus.unhealthy) := by
  refine ⟨rfl, rfl, fun mem cpu => ?_⟩
  cases mem with
  | error e => simp [healthReadiness]
  | ok m =>
    cases cpu with
    | error e => simp [healthReadiness]
    | ok c => simp [healthReadiness]

lemma reach_retries_le (maxR : Nat) (i : Invocation)
    (h : Reach maxR i) : i.retries ≤ maxR := by
  induction h with
  | init => exact Nat.zero_le _
  | step i j hr hs ih =>
    cases hs <;> simp_all
    omega

lemma reach_acked_terminal (maxR : Nat) (i : Invocation)
    (h : Reach maxR i) :
    i.acked = true →
      i.status = TaskStatus.succeeded ∨ i.status = TaskStatus.failed
        ∨ i.status = TaskStatus.expired := by
  induction h with
  | init => simp
  | step i j hr hs ih => cases hs <;> simp_all

/-- C3: a task configured with max_retries=3 and retry_base=60s whose
handler fails on every attempt performs exactly 4 executions (1 initial
+ 3 retries), the scheduled retry delays are 60, 120 and 240 seconds,
and it ends Failed; the delays agree with `example_task`'s source
formula `60 * 2 ** retries` at retry counters 0, 1, 2. -/
theorem c3_retry_schedule :
    runAllFail task_default_retry_delay task_max_retries
      = (4, [60, 120, 240], TaskStatus.failed)
    ∧ (List.range task_max_retries).map exampleTaskCountdown
      = [60, 120, 240] := by
  decide

/-- C4: for every reachable invocation state of the executor's state
machine with max_retries=3, the attempt count (one initial execution
plus the retry counter) never exceeds max_retries + 1; the bound is
preserved by every transition, including the retry transition, whose
guard `retries < max_retries` keeps the incremented counter in range. -/
theorem c4_attempt_bound (i : Invocation)
    (h : Reach task_max_retries i) :
    i.retries + 1 ≤ task_max_retries + 1 :=
  Nat.succ_le_succ (reach_retries_le task_max_retries i h)

/-- C4 witness: the state reached by dispatching and failing once
(Retrying, retry counter 1) satisfies the bound. -/
theorem c4_attempt_bound_witness :
    Reach task_max_retries ⟨TaskStatus.retrying, 1, false⟩
    ∧ (Invocation.mk TaskStatus.retrying 1 false).retries + 1
        ≤ task_max_retries + 1 := by
  have hreach : Reach task_max_retries ⟨TaskStatus.retrying, 1, false⟩ :=
    Reach.step _ _
      (Reach.step _ _ Reach.init (Step.dispatch 0 false))
      (Step.failRetry 0 false (by decide))
  exact ⟨hreach, c4_attempt_bound _ hreach⟩

/-- C7: under the configured limits (soft 3300s, hard 3600s), a handler
running past the hard limit is forcibly stopped and the invocation
becomes Expired even if the handler would have succeeded; a handler past
only the soft limit is notified but not forcibly stopped and still
reaches its own terminal outcome. -/
theorem c7_time_limits (d : Nat) (w : Bool) :
    (task_time_limit < d →
      (runWithLimits task_soft_time_limit task_time_limit d w).status
          = TaskStatus.expired
      ∧ (runWithLimits task_soft_time_limit task_time_limit d w).forciblyStopped
          = true)
    ∧ (task_soft_time_limit < d → d ≤ task_time_limit →
      (runWithLimits task_soft_time_limit task_time_limit d w).softNotified
          = true
      ∧ (runWithLimits task_soft_time_limit task_time_limit d w).forciblyStopped
          = false
      ∧ (runWithLimits task_soft_time_limit task_time_limit d w).status
          = (if w then TaskStatus.succeeded else TaskStatus.failed)) := by
  unfold runWithLimits
  constructor
  · intro hhard
    rw [if_pos hhard]
    exact ⟨rfl, rfl⟩
  · intro hsoft hhard
    rw [if_neg (by omega), if_pos hsoft]
    exact ⟨rfl, rfl, rfl⟩

/-- C7 witness: a would-succeed handler of duration 4000s expires and is
forcibly stopped; one of duration 3400s is soft-notified, not forcibly
stopped, and succeeds. -/
theorem c7_time_limits_witness :
    ((runWithLimits task_soft_time_limit task_time_limit 4000 true).status
        = TaskStatus.expired
      ∧ (runWithLimits task_soft_time_limit task_time_limit 4000 true).forciblyStopped
        = true)
    ∧ ((runWithLimits task_soft_time_limit task_time_limit 3400 true).softNotified
        = true
      ∧ (runWithLimits task_soft_time_limit task_time_limit 3400 true).forciblyStopped
        = false
      ∧ (runWithLimits task_soft_time_limit task_time_limit 3400 true).status
        = (if true then TaskStatus.succeeded else TaskStatus.failed)) :=
  ⟨(c7_time_limits 4000 true).1 (by decide),
   (c7_time_limits 3400 true).2 (by decide) (by decide)⟩

/-- C8: submitting 20 invocations to a queue rate-limited at 10 per
minute dispatches exactly 10 in the first window, leaves the other 10
Pending (none Failed), and the second window dispatches the deferred 10
(again none Failed). -/
theorem c8_rate_limit :
    countStatus TaskStatus.running
        (rateWindow rate_limited_task_limit
          (List.replicate 20 TaskStatus.pending)) = 10
    ∧ countStatus TaskStatus.pending
        (rateWindow rate_limited_task_limit
          (List.replicate 20 TaskStatus.pending)) = 10
    ∧ countStatus TaskStatus.failed
        (rateWindow rate_limited_task_limit
          (List.replicate 20 TaskStatus.pending)) = 0
    ∧ countStatus TaskStatus.pending
        (rateWindow rate_limited_task_limit
          (rateWindow rate_limited_task_limit
            (List.replicate 20 TaskStatus.pending))) = 0
    ∧ countStatus TaskStatus.running
        (rateWindow rate_limited_task_limit
          (rateWindow rate_limited_task_limit
            (List.replicate 20 TaskStatus.pending))) = 20
    ∧ countStatus TaskStatus.failed
        (rateWindow rate_limited_task_limit
          (rateWindow rate_limited_task_limit
            (List.replicate 20 TaskStatus.pending))) = 0 := by
  decide

/-- C9: in the late-acknowledgment state machine, every reachable
acknowledged invocation is terminal (Succeeded, Failed or Expired) — the
broker marks work consumed only after the handler completes — and every
unacknowledged invocation has the worker-lost transition back to Pending
with its retry counter preserved, so it is redelivered rather than lost. -/
theorem c9_late_ack (i : Invocation) :
    (Reach task_max_retries i → i.acked = true →
      i.status = TaskStatus.succeeded ∨ i.status = TaskStatus.failed
        ∨ i.status = TaskStatus.expired)
    ∧ (i.acked = false →
      Step task_max_retries i ⟨TaskStatus.pending, i.retries, false⟩) := by
  constructor
  · intro h
    exact reach_acked_terminal task_max_retries i h
  · obtain ⟨s, r, a⟩ := i
    intro ha
    cases ha
    exact Step.workerLost s r

/-- C9 witness: a successfully completed invocation is reachable with
the acknowledgment set (and is terminal), and a running unacknowledged
invocation with retry counter 2 steps back to Pending preserving the
counter. -/
theorem c9_late_ack_witness :
    (TaskStatus.succeeded = TaskStatus.succeeded
      ∨ TaskStatus.succeeded = TaskStatus.failed
      ∨ TaskStatus.succeeded = TaskStatus.expired)
    ∧ Step task_max_retries ⟨TaskStatus.running, 2, false⟩
        ⟨TaskStatus.pending, 2, false⟩ := by
  have hreach : Reach task_max_retries ⟨TaskStatus.succeeded, 0, true⟩ :=
    Reach.step _ _
      (Reach.step _ _ Reach.init (Step.dispatch 0 false))
      (Step.succeed 0 false)
  exact ⟨(c9_late_ack ⟨TaskStatus.succeeded, 0, true⟩).1 hreach rfl,
    (c9_late_ack ⟨TaskStatus.running, 2, false⟩).2 rfl⟩

/-- C10: for every payload and every current retry counter,
`example_task` returns `{"status": "success", "data": payload}` with the
payload unchanged, and never produces a retry request — its except
branch, and with it the `self.retry` backoff call, is unreachable
because the try body cannot raise. -/
theorem c10_example_task (α : Type) (retries : Nat) (data : α) :
    example_task retries data
        = ExampleTaskOutcome.finished ⟨"success", data⟩
    ∧ ∀ (c : Nat),
        example_task retries data ≠ ExampleTaskOutcome.retryRequested c := by
  refine ⟨rfl, fun c h => ?_⟩
  simp [example_task, exampleTaskBody] at h

/-- C1 witness: the amended aggregation facts evaluated at concrete
inputs — a set with one warning probe aggregates to Unhealthy in the
fastapi example, and the health template's overall status stays Healthy
with a 95% (warning) memory reading. -/
theorem c1_amended_witness :
    ((mainAggregate [PStatus.warning] = PStatus.healthy
        ↔ [PStatus.warning].all (fun c => c = PStatus.healthy) = true)
      ∧ (mainAggregate [PStatus.warning] = PStatus.healthy
        ∨ mainAggregate [PStatus.warning] = PStatus.unhealthy))
    ∧ (healthReadiness (Except.ok ⟨95, 100⟩) (Except.ok 10)).status
        = PStatus.healthy :=
  ⟨(c1_amended.1 [PStatus.warning]), c1_amended.2 ⟨95, 100⟩ 10⟩

/-- C2 witness: the amended containment facts at concrete inputs — in
the fastapi example a failing database probe still leaves the redis
entry present, and in the health template a memory-check exception
yields an empty per-probe map with the message in the error field. -/
theorem c2_amended_witness :
    ((mainReadiness (Except.error "down") (Except.ok 2)).checks.lookup "database"
        = some ⟨PStatus.unhealthy, none, some "down"⟩
      ∧ (mainReadiness (Except.error "down") (Except.ok 2)).checks.lookup "redis"
        = some (probeEntry (Except.ok 2)))
    ∧ ((healthReadiness (Except.error "oom") (Except.ok 10)).checks = []
      ∧ (healthReadiness (Except.error "oom") (Except.ok 10)).status
        = PStatus.unhealthy
      ∧ (healthReadiness (Except.error "oom") (Except.ok 10)).error
        = some "oom") :=
  ⟨c2_amended.1 "down" (Except.ok 2),
   c2_amended.2.2.1 "oom" (Except.ok 10)⟩

/-- C10 witness: `example_task` at retry counter 0 and payload 5 returns
the success dict and is not a retry request with countdown 60. -/
theorem c10_example_task_witness :
    example_task 0 (5 : Nat)
        = ExampleTaskOutcome.finished ⟨"success", 5⟩
    ∧ example_task 0 (5 : Nat)
        ≠ ExampleTaskOutcome.retryRequested 60 :=
  ⟨(c10_example_task Nat 0 5).1, (c10_example_task Nat 0 5).2 60⟩
